import Mathlib

/-!
# Task manager backend: request handlers

A shallow embedding of `backend/routes/tasks.js` (the five task handlers) and of the
global error handler of `backend/server.js`, with the JavaScript built-ins the handlers
use (`parseInt`, `isNaN`, `typeof`, `!`, `String.prototype.trim`, `length`).

The module `backend/data/tasks.js` (`TaskService`) is required by the routes but is not
part of the sources; the handlers are therefore parameterised by an arbitrary service whose
operations may return or throw, and may change an arbitrary store state.
-/

namespace TaskManager

/-! ## JavaScript values -/

/-- A JavaScript string: a sequence of UTF-16 code units. `length` counts code units. -/
abbrev JsString := List Nat

/-- UTF-16 encoding of one Unicode scalar value. -/
def utf16 (c : Char) : List Nat :=
  if c.toNat < 0x10000 then [c.toNat]
  else [0xD800 + (c.toNat - 0x10000) / 0x400, 0xDC00 + (c.toNat - 0x10000) % 0x400]

/-- The JavaScript string written with the given text. -/
def js (s : String) : JsString := s.toList.flatMap utf16

/-- ECMAScript `WhiteSpace` and `LineTerminator` code points, the characters removed by
`trim` and skipped by `parseInt`. -/
def isWhiteSpace (c : Nat) : Bool :=
  c == 0x09 || c == 0x0A || c == 0x0B || c == 0x0C || c == 0x0D || c == 0x20 ||
  c == 0xA0 || c == 0x1680 || (0x2000 ≤ c && c ≤ 0x200A) || c == 0x2028 || c == 0x2029 ||
  c == 0x202F || c == 0x205F || c == 0x3000 || c == 0xFEFF

/-- `String.prototype.trim`: strip white space from both ends. -/
def trim (s : JsString) : JsString :=
  ((s.dropWhile isWhiteSpace).reverse.dropWhile isWhiteSpace).reverse

/-- Value of a code unit as a digit: `0-9`, then `a-z` / `A-Z` for 10 to 35. -/
def digitValue (c : Nat) : Option Nat :=
  if 48 ≤ c ∧ c ≤ 57 then some (c - 48)
  else if 97 ≤ c ∧ c ≤ 122 then some (c - 97 + 10)
  else if 65 ≤ c ∧ c ≤ 90 then some (c - 65 + 10)
  else none

/-- Whether a code unit is a digit of the given radix. -/
def isRadixDigit (radix : Nat) (c : Nat) : Bool :=
  match digitValue c with
  | some v => decide (v < radix)
  | none => false

/-- Mathematical value of a digit string in the given radix. -/
def digitsValue (radix : Nat) (ds : List Nat) : Nat :=
  ds.foldl (fun acc c => acc * radix + (digitValue c).getD 0) 0

/-- Steps 8 to 14 of `parseInt` on the string left after white space and sign: radix 16
after `0x` / `0X` and radix 10 otherwise, then the longest run of digits of that radix.
`none` when there is no digit. -/
def parseMagnitude (s : JsString) : Option Nat :=
  let radix : Nat := match s with
    | 48 :: 120 :: _ => 16
    | 48 :: 88 :: _ => 16
    | _ => 10
  let s := match s with
    | 48 :: 120 :: rest => rest
    | 48 :: 88 :: rest => rest
    | _ => s
  let z := s.takeWhile (isRadixDigit radix)
  if z.isEmpty then none else some (digitsValue radix z)

/-- Step 5 of `parseInt`: remove a leading `+` or `-`. -/
def stripSign (s : JsString) : JsString :=
  match s with
  | 43 :: rest => rest
  | 45 :: rest => rest
  | _ => s

/-- The Number values other than `NaN` that `parseInt` can return: an integer-valued
double given by its sign and magnitude (so `-0` is `finite true 0`), or an infinity. -/
inductive IntegralNumber
  | finite (negative : Bool) (magnitude : Nat)
  | infinity (negative : Bool)
  deriving DecidableEq, Repr

/-- Number of binary digits of `n`, by repeated halving; `fuel` bounds the halvings. -/
def bitLength (fuel n : Nat) : Nat :=
  match fuel with
  | 0 => 0
  | fuel + 1 => if n = 0 then 0 else bitLength fuel (n / 2) + 1

/-- The double nearest to the non-negative integer `m` (round to nearest, ties to even):
exact below `2^53`; above, `m` is rounded to 53 significant binary digits. `none` when
the rounded value reaches `2^1024`, which is `Infinity`. -/
def roundToDouble (m : Nat) : Option Nat :=
  if m < 2 ^ 53 then some m
  else
    let e := bitLength m m - 53
    let q := m / 2 ^ e
    let r := m % 2 ^ e
    let half := 2 ^ (e - 1)
    let q := if r > half || (r == half && q % 2 == 1) then q + 1 else q
    if q * 2 ^ e < 2 ^ 1024 then some (q * 2 ^ e) else none

/-- Step 16 of `parseInt`: the Number value of `sign × mathInt`, the exact integer
rounded to the nearest double. -/
def toNumber (negative : Bool) (mathInt : Nat) : IntegralNumber :=
  match roundToDouble mathInt with
  | some v => .finite negative v
  | none => .infinity negative

/-- `parseInt(string)` with no radix argument (ECMAScript 19.2.5): skip leading white
space, read an optional sign, switch to radix 16 after `0x` / `0X`, read the longest
run of digits, and return their value as a Number, that is, rounded to a double.
`none` is `NaN`. -/
def parseInt (input : JsString) : Option IntegralNumber :=
  let s := input.dropWhile isWhiteSpace
  let negative : Bool := match s with
    | 45 :: _ => true
    | _ => false
  match parseMagnitude (stripSign s) with
  | none => none
  | some mathInt => some (toNumber negative mathInt)

/-- `isNaN(x)` applied to the result of `parseInt`. -/
def isNaN (x : Option IntegralNumber) : Bool := x.isNone

/-- Strict equality `k === x` of an integer `k` with a Number returned by `parseInt`
(`0 === -0` holds, no integer equals an infinity). -/
def IntegralNumber.strictEquals (x : IntegralNumber) (k : Int) : Bool :=
  match x with
  | .finite negative magnitude => (if negative then -(magnitude : Int) else magnitude) == k
  | .infinity _ => false

/-- Number values, up to what `!` can observe of them. -/
inductive JsNumber
  | nan
  | zero
  | nonzero
  deriving DecidableEq, Repr

/-- The values a field of a parsed request body can take. `undefined` is a field that is
absent; `object` stands for any array or object. -/
inductive JsValue
  | undefined
  | null
  | boolean (b : Bool)
  | number (n : JsNumber)
  | string (s : JsString)
  | object
  deriving DecidableEq, Repr

/-- The `typeof` operator. -/
def JsValue.typeof : JsValue → String
  | .undefined => "undefined"
  | .null => "object"
  | .boolean _ => "boolean"
  | .number _ => "number"
  | .string _ => "string"
  | .object => "object"

/-- ECMAScript `ToBoolean`; `!v` is its negation. -/
def JsValue.toBoolean : JsValue → Bool
  | .undefined => false
  | .null => false
  | .boolean b => b
  | .number .nan => false
  | .number .zero => false
  | .number .nonzero => true
  | .string s => !s.isEmpty
  | .object => true

/-- A plain object: its own properties, in insertion order. -/
abbrev JsObject := List (String × JsValue)

/-- Property read `obj.key`; an absent property reads as `undefined`. -/
def JsObject.get (obj : JsObject) (key : String) : JsValue :=
  match obj.lookup key with
  | some v => v
  | none => .undefined

/-- Property assignment `obj.key = v`. -/
def JsObject.set (obj : JsObject) (key : String) (v : JsValue) : JsObject :=
  if obj.any (fun p => p.1 == key) then obj.map (fun p => if p.1 == key then (key, v) else p)
  else obj ++ [(key, v)]

/-! ## Requests, responses and the task service -/

/-- What a handler reads of a request: the `:id` path segment (`req.params.id`, unused by
the routes without one) and the parsed body (`req.body`, an object once the body parsers
of `server.js` have run). -/
structure Request where
  id : JsString
  body : JsObject
  deriving DecidableEq, Repr

/-- A value thrown while a handler runs. -/
structure Fault where
  name : String
  message : String
  deriving DecidableEq, Repr

/-- The values the handlers put in a response body; `τ` is the type of a task as the
service returns it. -/
inductive Json (τ : Type)
  | bool (b : Bool)
  | str (s : String)
  | num (n : Nat)
  | task (t : τ)
  | tasks (ts : List τ)
  deriving DecidableEq, Repr

/-- An HTTP response: `res.status(status).json(body)`; the status is 200 when the handler
does not set it. -/
structure Response (τ : Type) where
  status : Nat
  body : List (String × Json τ)
  deriving DecidableEq, Repr

/-- A call made to the task service, with its arguments. -/
inductive Call
  | getAllTasks
  | getTaskById (id : IntegralNumber)
  | createTask (title : JsString)
  | updateTask (id : IntegralNumber) (updates : JsObject)
  | deleteTask (id : IntegralNumber)
  deriving DecidableEq, Repr

/-- The interface of `TaskService` (`require('../data/tasks')`) as the handlers use it.
Each operation runs on the store state `σ`, and either returns or throws. `getTaskById`
and `updateTask` return a task or nothing, `deleteTask` a boolean. -/
structure TaskService (σ τ : Type) where
  getAllTasks : σ → Except Fault (List τ) × σ
  getTaskById : IntegralNumber → σ → Except Fault (Option τ) × σ
  createTask : JsString → σ → Except Fault τ × σ
  updateTask : IntegralNumber → JsObject → σ → Except Fault (Option τ) × σ
  deleteTask : IntegralNumber → σ → Except Fault Bool × σ

/-- Everything observable of one run of a handler: the response sent, the service calls
made in order, what `console.error` printed, and the store state afterwards. -/
structure Handled (σ τ : Type) where
  response : Response τ
  calls : List Call
  logged : Option (String × Fault)
  state : σ

/-- A failure response sent before any service call: `success: false` with an error text. -/
def failure {τ : Type} (status : Nat) (error : String) : Response τ :=
  { status := status, body := [("success", .bool false), ("error", .str error)] }

/-- The early `return res.status(status).json(...)` of a handler: nothing was called. -/
def reject {σ τ : Type} (st : σ) (status : Nat) (error : String) : Handled σ τ :=
  { response := failure status error, calls := [], logged := none, state := st }

/-- The `catch (error)` block shared by the five handlers. -/
def caught {σ τ : Type} (st : σ) (calls : List Call) (label : String) (error : Fault) :
    Handled σ τ :=
  { response := failure 500 "Internal server error", calls := calls,
    logged := some (label, error), state := st }

/-! ## The handlers of `routes/tasks.js` -/

/-- Handler of `GET /api/tasks` (lines 7-22). -/
def getTasks {σ τ : Type} (svc : TaskService σ τ) (_req : Request) (st : σ) : Handled σ τ :=
  match svc.getAllTasks st with
  | (.ok tasks, st1) =>
    { response := { status := 200, body := [("success", .bool true), ("data", .tasks tasks),
                                            ("count", .num tasks.length)] },
      calls := [.getAllTasks], logged := none, state := st1 }
  | (.error error, st1) => caught st1 [.getAllTasks] "Error fetching tasks:" error

/-- Handler of `GET /api/tasks/:id` (lines 25-56). -/
def getTask {σ τ : Type} (svc : TaskService σ τ) (req : Request) (st : σ) : Handled σ τ :=
  let id := parseInt req.id
  match id with
  | none => reject st 400 "Invalid task ID"
  | some id =>
    match svc.getTaskById id st with
    | (.ok none, st1) =>
      { response := failure 404 "Task not found",
        calls := [.getTaskById id], logged := none, state := st1 }
    | (.ok (some task), st1) =>
      { response := { status := 200, body := [("success", .bool true), ("data", .task task)] },
        calls := [.getTaskById id], logged := none, state := st1 }
    | (.error error, st1) => caught st1 [.getTaskById id] "Error fetching task:" error

/-- Handler of `POST /api/tasks` (lines 59-92). The service receives the title as the
body gave it, untrimmed. -/
def postTask {σ τ : Type} (svc : TaskService σ τ) (req : Request) (st : σ) : Handled σ τ :=
  let title := req.body.get "title"
  match title with
  | .string s =>
    if !title.toBoolean || trim s == [] then
      reject st 400 "Task title is required and must be a non-empty string"
    else if (trim s).length > 200 then
      reject st 400 "Task title must be less than 200 characters"
    else
      match svc.createTask s st with
      | (.ok newTask, st1) =>
        { response := { status := 201, body := [("success", .bool true), ("data", .task newTask),
                                                ("message", .str "Task created successfully")] },
          calls := [.createTask s], logged := none, state := st1 }
      | (.error error, st1) => caught st1 [.createTask s] "Error creating task:" error
  | _ =>
    -- typeof title !== 'string'
    reject st 400 "Task title is required and must be a non-empty string"

/-- The title block of the update handler (lines 110-118): the error text, or the change
set with the trimmed title assigned. -/
def putTitle (title : JsValue) (updates : JsObject) : Except String JsObject :=
  if title != .undefined then
    match title with
    | .string s =>
      if trim s == [] then .error "Title must be a non-empty string"
      else .ok (updates.set "title" (.string (trim s)))
    | _ => .error "Title must be a non-empty string"
  else .ok updates

/-- The completed block of the update handler (lines 120-128). -/
def putCompleted (completed : JsValue) (updates : JsObject) : Except String JsObject :=
  if completed != .undefined then
    match completed with
    | .boolean _ => .ok (updates.set "completed" completed)
    | _ => .error "Completed must be a boolean value"
  else .ok updates

/-- The validation of the update body (lines 106-128): the title block, then the
completed block, starting from the empty change set `updates = {}`. -/
def putUpdates (body : JsObject) : Except String JsObject :=
  let title := body.get "title"
  let completed := body.get "completed"
  let updates : JsObject := []
  match putTitle title updates with
  | .error msg => .error msg
  | .ok updates => putCompleted completed updates

/-- Handler of `PUT /api/tasks/:id` (lines 95-151). -/
def putTask {σ τ : Type} (svc : TaskService σ τ) (req : Request) (st : σ) : Handled σ τ :=
  let id := parseInt req.id
  match id with
  | none => reject st 400 "Invalid task ID"
  | some id =>
    match putUpdates req.body with
    | .error msg => reject st 400 msg
    | .ok updates =>
      match svc.updateTask id updates st with
      | (.ok none, st1) =>
        { response := failure 404 "Task not found",
          calls := [.updateTask id updates], logged := none, state := st1 }
      | (.ok (some updatedTask), st1) =>
        { response := { status := 200,
                        body := [("success", .bool true), ("data", .task updatedTask),
                                 ("message", .str "Task updated successfully")] },
          calls := [.updateTask id updates], logged := none, state := st1 }
      | (.error error, st1) => caught st1 [.updateTask id updates] "Error updating task:" error

/-- Handler of `DELETE /api/tasks/:id` (lines 154-185). -/
def deleteTask {σ τ : Type} (svc : TaskService σ τ) (req : Request) (st : σ) : Handled σ τ :=
  let id := parseInt req.id
  match id with
  | none => reject st 400 "Invalid task ID"
  | some id =>
    match svc.deleteTask id st with
    | (.ok false, st1) =>
      { response := failure 404 "Task not found",
        calls := [.deleteTask id], logged := none, state := st1 }
    | (.ok true, st1) =>
      { response := { status := 200, body := [("success", .bool true),
                                              ("message", .str "Task deleted successfully")] },
        calls := [.deleteTask id], logged := none, state := st1 }
    | (.error error, st1) => caught st1 [.deleteTask id] "Error deleting task:" error

/-! ## The global error handler of `server.js` -/

/-- The global error handler (`server.js` lines 61-68); `nodeEnv` is
`process.env.NODE_ENV`, which may be unset. -/
def globalErrorHandler {τ : Type} (nodeEnv : Option String) (error : Fault) : Response τ :=
  { status := 500,
    body := [("success", .bool false), ("error", .str "Internal server error"),
             ("message", .str (if nodeEnv = some "development" then error.message
                               else "Something went wrong"))] }

/-! ## Reading a response -/

/-- The `success` field of a response body, if present. -/
def Response.success {τ : Type} (r : Response τ) : Option (Json τ) := r.body.lookup "success"

/-- The `data` field of a response body, if present. -/
def Response.data {τ : Type} (r : Response τ) : Option (Json τ) := r.body.lookup "data"

/-- The `error` field of a response body, if present. -/
def Response.error {τ : Type} (r : Response τ) : Option (Json τ) := r.body.lookup "error"

/-- The `message` field of a response body, if present. -/
def Response.message {τ : Type} (r : Response τ) : Option (Json τ) := r.body.lookup "message"

/-! ## A task store to run the handlers against -/

/-- A task record (spec section 3). -/
structure Task where
  id : Int
  title : JsString
  completed : Bool
  createdAt : Nat
  updatedAt : Nat
  deriving DecidableEq, Repr

/-- The state of the task store: the collection in insertion order, the identifier
counter and the clock. -/
structure Store where
  tasks : List Task
  nextId : Nat
  now : Nat
  deriving DecidableEq, Repr

/-- The fault the store raises on invalid input. -/
def validationError : Fault := { name := "ValidationError", message := "invalid title" }

/-- Modelled from the spec: the Task Store of section 4.1 (`backend/data/tasks.js`,
required by `routes/tasks.js`, is not among the sources). List and get have no side
effect; create and update defend the title constraint by raising `ValidationError`;
update reports an absent task before anything else; delete reports whether a task was
removed. -/
def specStore : TaskService Store Task where
  getAllTasks st := (.ok st.tasks, st)
  getTaskById id st := (.ok (st.tasks.find? (fun t => id.strictEquals t.id)), st)
  createTask title st :=
    if trim title == [] || decide ((trim title).length > 200) then (.error validationError, st)
    else
      let task : Task := { id := st.nextId, title := trim title, completed := false,
                           createdAt := st.now, updatedAt := st.now }
      (.ok task, { tasks := st.tasks ++ [task], nextId := st.nextId + 1, now := st.now + 1 })
  updateTask id updates st :=
    match st.tasks.find? (fun t => id.strictEquals t.id) with
    | none => (.ok none, st)
    | some old =>
      let title : Except Fault JsString := match updates.get "title" with
        | .undefined => .ok old.title
        | .string s =>
          if trim s == [] || decide ((trim s).length > 200) then .error validationError
          else .ok (trim s)
        | _ => .error validationError
      let completed : Bool := match updates.get "completed" with
        | .boolean b => b
        | _ => old.completed
      match title with
      | .error e => (.error e, st)
      | .ok newTitle =>
        let task : Task := { old with title := newTitle, completed := completed,
                                      updatedAt := st.now }
        (.ok (some task),
         { st with tasks := st.tasks.map (fun t => if id.strictEquals t.id then task else t),
                   now := st.now + 1 })
  deleteTask id st :=
    if st.tasks.any (fun t => id.strictEquals t.id) then
      (.ok true, { st with tasks := st.tasks.filter (fun t => !(id.strictEquals t.id)) })
    else (.ok false, st)

/-- The store as it starts: empty, with the counter at 1. -/
def emptyStore : Store := { tasks := [], nextId := 1, now := 0 }

/-- A store holding the single task created first, `Write report`. -/
def oneTaskStore : Store :=
  { tasks := [{ id := 1, title := js "Write report", completed := false,
                createdAt := 0, updatedAt := 0 }],
    nextId := 2, now := 1 }

/-- A service all of whose operations throw the given fault. -/
def failingService (e : Fault) : TaskService Store Task where
  getAllTasks st := (.error e, st)
  getTaskById _ st := (.error e, st)
  createTask _ st := (.error e, st)
  updateTask _ _ st := (.error e, st)
  deleteTask _ st := (.error e, st)

/-- The same service with every thrown fault replaced by its image under `f`. -/
def TaskService.mapFault {σ τ : Type} (f : Fault → Fault) (svc : TaskService σ τ) :
    TaskService σ τ where
  getAllTasks st := ((svc.getAllTasks st).1.mapError f, (svc.getAllTasks st).2)
  getTaskById id st := ((svc.getTaskById id st).1.mapError f, (svc.getTaskById id st).2)
  createTask title st := ((svc.createTask title st).1.mapError f, (svc.createTask title st).2)
  updateTask id u st := ((svc.updateTask id u st).1.mapError f, (svc.updateTask id u st).2)
  deleteTask id st := ((svc.deleteTask id st).1.mapError f, (svc.deleteTask id st).2)

/-- The claim-side reading of an identifier that cannot be parsed: after leading white
space and an optional sign the string ends or continues with something other than a
decimal digit. -/
def noLeadingDigit (input : JsString) : Bool :=
  match stripSign (input.dropWhile isWhiteSpace) with
  | c :: _ => !(decide (48 ≤ c ∧ c ≤ 57))
  | [] => true

/-- A decimal digit, `0` to `9`. -/
def isDecimalDigit (c : Nat) : Bool := decide (48 ≤ c ∧ c ≤ 57)

/-- A hexadecimal digit: `0` to `9`, `a` to `f` or `A` to `F`. -/
def isHexDigit (c : Nat) : Bool :=
  decide (48 ≤ c ∧ c ≤ 57) || decide (97 ≤ c ∧ c ≤ 102) || decide (65 ≤ c ∧ c ≤ 70)

/-- Whether a string begins with a code unit satisfying `p`. -/
def startsWith (p : Nat → Bool) : JsString → Bool
  | c :: _ => p c
  | [] => false

/-- No digit can be read from an unsigned string: after `0x` / `0X` no hexadecimal
digit follows, or without that mark the string does not begin with a decimal digit. -/
def noDigitUnsigned (s : JsString) : Bool :=
  match s with
  | 48 :: 120 :: rest => !(startsWith isHexDigit rest)
  | 48 :: 88 :: rest => !(startsWith isHexDigit rest)
  | s => !(startsWith isDecimalDigit s)

/-- The identifiers from which no integer can be read: after leading white space, an
optional sign and an optional `0x` / `0X` mark there is no digit (decimal, or
hexadecimal after the mark). -/
def noDigit (input : JsString) : Bool :=
  noDigitUnsigned (stripSign (input.dropWhile isWhiteSpace))

/-- Whether the identifier carries a minus sign after its leading white space. -/
def hasMinusSign (input : JsString) : Bool :=
  match input.dropWhile isWhiteSpace with
  | 45 :: _ => true
  | _ => false

/-- The title entry of the change set, as the claims describe it: the trimmed title when
the body supplies a string, nothing otherwise. -/
def titleChange : JsValue → JsObject
  | .string s => [("title", .string (trim s))]
  | _ => []

/-- The completed entry of the change set, as the claims describe it. -/
def completedChange : JsValue → JsObject
  | .boolean b => [("completed", .boolean b)]
  | _ => []

/-- The envelope of a response: either `success: true` with the expected status and a
`data` field as `payload` describes it, or `success: false` with an error text and no
`data` field. -/
def Response.Shaped {τ : Type} (r : Response τ) (okStatus : Nat)
    (payload : Option (Json τ) → Prop) : Prop :=
  (r.success = some (.bool true) ∧ r.status = okStatus ∧ payload r.data) ∨
  (r.success = some (.bool false) ∧ (∃ text, r.error = some (.str text)) ∧ r.data = none)

/-! ## Failure responses -/

/-- A failure response has `success: false`. -/
theorem failure_success {τ : Type} (status : Nat) (error : String) :
    (failure status error : Response τ).success = some (.bool false) := rfl

/-- A failure response carries its error text. -/
theorem failure_error {τ : Type} (status : Nat) (error : String) :
    (failure status error : Response τ).error = some (.str error) := rfl

/-- A failure response has no data payload. -/
theorem failure_data {τ : Type} (status : Nat) (error : String) :
    (failure status error : Response τ).data = none := rfl

/-- A failure response has the status it was given. -/
theorem failure_status {τ : Type} (status : Nat) (error : String) :
    (failure status error : Response τ).status = status := rfl

/-! ## Create: title validation -/

/-- What the create handler does once the title is known to be a string. -/
theorem postTask_string {σ τ : Type} (svc : TaskService σ τ) (req : Request) (st : σ)
    (s : JsString) (h : req.body.get "title" = .string s) :
    postTask svc req st =
      if trim s = [] ∨ 200 < (trim s).length then
        reject st 400 (if trim s = [] then "Task title is required and must be a non-empty string"
                       else "Task title must be less than 200 characters")
      else
        match svc.createTask s st with
        | (.ok newTask, st1) =>
          { response := { status := 201,
                          body := [("success", .bool true), ("data", .task newTask),
                                   ("message", .str "Task created successfully")] },
            calls := [.createTask s], logged := none, state := st1 }
        | (.error error, st1) => caught st1 [.createTask s] "Error creating task:" error := by
  unfold postTask
  simp only [h]
  by_cases h1 : trim s = []
  · simp [h1]
  · have h2 : s ≠ [] := by
      rintro rfl
      exact h1 (by simp [trim])
    by_cases h3 : 200 < (trim s).length
    · simp [h1, h2, h3, JsValue.toBoolean]
    · simp [h1, h2, h3, JsValue.toBoolean]


/-- What the create handler does when the title is not a string. -/
theorem postTask_not_string {σ τ : Type} (svc : TaskService σ τ) (req : Request) (st : σ)
    (h : ∀ s, req.body.get "title" ≠ .string s) :
    postTask svc req st =
      reject st 400 "Task title is required and must be a non-empty string" := by
  unfold postTask
  cases hv : req.body.get "title" with
  | string s => exact absurd hv (h s)
  | _ => rfl

/-- C1: the create handler answers 400 with `success: false` and without calling
`createTask` exactly when the title is missing, is not a string, is empty after trimming
or is longer than 200 code units after trimming; in every other case `createTask` is
called exactly once, with the title. A trimmed length of 200 is accepted, 201 is not. -/
theorem postTask_rejects_iff {σ τ : Type} (svc : TaskService σ τ) (req : Request) (st : σ) :
    (((postTask svc req st).response.status = 400 ∧
        (postTask svc req st).response.success = some (.bool false) ∧
        (postTask svc req st).calls = []) ↔
      (req.body.get "title" = .undefined ∨ (req.body.get "title").typeof ≠ "string" ∨
        ∃ s, req.body.get "title" = .string s ∧ (trim s = [] ∨ 200 < (trim s).length))) ∧
    (¬ (req.body.get "title" = .undefined ∨ (req.body.get "title").typeof ≠ "string" ∨
        ∃ s, req.body.get "title" = .string s ∧ (trim s = [] ∨ 200 < (trim s).length)) →
      ∃ s, req.body.get "title" = .string s ∧
        (postTask svc req st).calls = [.createTask s]) ∧
    (∀ s, req.body.get "title" = .string s → (trim s).length = 200 →
      (postTask svc req st).response.status ≠ 400 ∧
        (postTask svc req st).calls = [.createTask s]) ∧
    (∀ s, req.body.get "title" = .string s → (trim s).length = 201 →
      (postTask svc req st).response.status = 400 ∧ (postTask svc req st).calls = []) := by
  cases hv : req.body.get "title" with
  | string s =>
    have key := postTask_string svc req st s hv
    by_cases hbad : trim s = [] ∨ 200 < (trim s).length
    · rw [if_pos hbad] at key
      refine ⟨?_, ?_, ?_, ?_⟩
      · simp [key, reject, failure, Response.success, hbad, JsValue.typeof]
      · intro hn
        exact absurd (Or.inr (Or.inr ⟨s, rfl, hbad⟩)) hn
      · intro s2 hs2 hlen
        cases hs2
        rcases hbad with h0 | h0
        · simp [h0] at hlen
        · omega
      · intro s2 hs2 _
        cases hs2
        simp [key, reject, failure]
    · rw [if_neg hbad] at key
      have hcalls : (postTask svc req st).calls = [.createTask s] ∧
          (postTask svc req st).response.status ≠ 400 := by
        rw [key]
        rcases hr : svc.createTask s st with ⟨r, st1⟩
        cases r <;> simp [caught, failure]
      refine ⟨?_, ?_, ?_, ?_⟩
      · constructor
        · intro h
          exact absurd h.1 hcalls.2
        · rintro (h | h | ⟨s2, hs2, h⟩)
          · cases h
          · exact absurd rfl h
          · cases hs2
            exact absurd h hbad
      · intro _
        exact ⟨s, rfl, hcalls.1⟩
      · intro s2 hs2 _
        cases hs2
        exact ⟨hcalls.2, hcalls.1⟩
      · intro s2 hs2 hlen
        cases hs2
        exact absurd (Or.inr (by omega)) hbad
  | undefined =>
    have key := postTask_not_string svc req st (by simp [hv])
    simp [key, reject, failure, Response.success]
  | null =>
    have key := postTask_not_string svc req st (by simp [hv])
    simp [key, reject, failure, Response.success, JsValue.typeof]
  | boolean b =>
    have key := postTask_not_string svc req st (by simp [hv])
    simp [key, reject, failure, Response.success, JsValue.typeof]
  | number n =>
    have key := postTask_not_string svc req st (by simp [hv])
    simp [key, reject, failure, Response.success, JsValue.typeof]
  | object =>
    have key := postTask_not_string svc req st (by simp [hv])
    simp [key, reject, failure, Response.success, JsValue.typeof]

/-! ## Update: validation and the change set -/

/-- A body whose title and completed fields are absent or valid yields the change set
made of the supplied fields. -/
theorem putUpdates_valid (body : JsObject)
    (ht : body.get "title" = .undefined ∨ ∃ s, body.get "title" = .string s ∧ trim s ≠ [])
    (hc : body.get "completed" = .undefined ∨ ∃ b, body.get "completed" = .boolean b) :
    putUpdates body =
      .ok (titleChange (body.get "title") ++ completedChange (body.get "completed")) := by
  unfold putUpdates
  rcases ht with ht | ⟨s, ht, hs⟩
  · rcases hc with hc | ⟨b, hc⟩ <;>
      simp [ht, hc, putTitle, putCompleted, titleChange, completedChange, JsObject.set]
  · rcases hc with hc | ⟨b, hc⟩ <;>
      simp [ht, hc, hs, putTitle, putCompleted, titleChange, completedChange, JsObject.set]

/-- A supplied title that is not a non-empty string after trimming is refused. -/
theorem putUpdates_bad_title (body : JsObject) (h0 : body.get "title" ≠ .undefined)
    (h1 : ∀ s, body.get "title" = .string s → trim s = []) :
    putUpdates body = .error "Title must be a non-empty string" := by
  unfold putUpdates
  cases hv : body.get "title" with
  | undefined => exact absurd hv h0
  | string s => simp [putTitle, h1 s hv]
  | _ => simp [putTitle]

/-- A supplied completed flag that is not a boolean is refused. -/
theorem putUpdates_bad_completed (body : JsObject) (h0 : body.get "completed" ≠ .undefined)
    (h1 : ∀ b, body.get "completed" ≠ .boolean b) :
    ∃ msg, putUpdates body = .error msg := by
  cases ht : putTitle (body.get "title") [] with
  | error msg => exact ⟨msg, by simp only [putUpdates, ht]⟩
  | ok u =>
    refine ⟨"Completed must be a boolean value", ?_⟩
    cases hv : body.get "completed" with
    | undefined => exact absurd hv h0
    | boolean b => exact absurd hv (h1 b)
    | _ => simp [putUpdates, ht, hv, putCompleted]

/-- A refused body makes the update handler answer 400 without any call. -/
theorem putTask_refused {σ τ : Type} (svc : TaskService σ τ) (req : Request) (st : σ)
    (msg : String) (h : putUpdates req.body = .error msg) :
    ∃ text, putTask svc req st = reject st 400 text := by
  unfold putTask
  cases hid : parseInt req.id with
  | none => exact ⟨_, rfl⟩
  | some n => exact ⟨msg, by simp [h]⟩

/-- With a parsed identifier and an accepted body, the update handler calls `updateTask`
once and answers from its outcome. -/
theorem putTask_accepted {σ τ : Type} (svc : TaskService σ τ) (req : Request) (st : σ)
    (n : IntegralNumber) (u : JsObject) (hid : parseInt req.id = some n)
    (hu : putUpdates req.body = .ok u) :
    putTask svc req st =
      match svc.updateTask n u st with
      | (.ok none, st1) =>
        { response := failure 404 "Task not found",
          calls := [.updateTask n u], logged := none, state := st1 }
      | (.ok (some updatedTask), st1) =>
        { response := { status := 200,
                        body := [("success", .bool true), ("data", .task updatedTask),
                                 ("message", .str "Task updated successfully")] },
          calls := [.updateTask n u], logged := none, state := st1 }
      | (.error error, st1) => caught st1 [.updateTask n u] "Error updating task:" error := by
  unfold putTask
  simp only [hid, hu]

/-- After an accepted body the update handler has made exactly the one call and does not
answer 400. -/
theorem putTask_accepted_calls {σ τ : Type} (svc : TaskService σ τ) (req : Request) (st : σ)
    (n : IntegralNumber) (u : JsObject) (hid : parseInt req.id = some n)
    (hu : putUpdates req.body = .ok u) :
    (putTask svc req st).calls = [.updateTask n u] ∧
      (putTask svc req st).response.status ≠ 400 := by
  rw [putTask_accepted svc req st n u hid hu]
  rcases hr : svc.updateTask n u st with ⟨r, st1⟩
  rcases r with e | (_ | t) <;> simp [caught, failure]

/-- An accepted body has an absent or valid title, an absent or boolean completed flag,
and its change set consists of the supplied fields. -/
theorem putUpdates_ok_inv (body : JsObject) (u : JsObject) (hu : putUpdates body = .ok u) :
    (body.get "title" = .undefined ∨ ∃ s, body.get "title" = .string s ∧ trim s ≠ []) ∧
    (body.get "completed" = .undefined ∨ ∃ b, body.get "completed" = .boolean b) ∧
    u = titleChange (body.get "title") ++ completedChange (body.get "completed") := by
  have ht : body.get "title" = .undefined ∨ ∃ s, body.get "title" = .string s ∧ trim s ≠ [] := by
    by_contra hcon
    push_neg at hcon
    have hbad := putUpdates_bad_title body hcon.1 hcon.2
    rw [hbad] at hu
    cases hu
  have hc : body.get "completed" = .undefined ∨ ∃ b, body.get "completed" = .boolean b := by
    by_contra hcon
    push_neg at hcon
    obtain ⟨msg, hbad⟩ := putUpdates_bad_completed body hcon.1 hcon.2
    rw [hbad] at hu
    cases hu
  refine ⟨ht, hc, ?_⟩
  rw [putUpdates_valid body ht hc] at hu
  cases hu
  rfl

/-- The update handler never checks the length of the title: a title that is a non-empty
string after trimming, however long, is handed to `updateTask`, and the answer is not 400. -/
theorem putTask_title_length_unchecked {σ τ : Type} (svc : TaskService σ τ) (req : Request)
    (st : σ) (n : IntegralNumber) (s : JsString) (hid : parseInt req.id = some n)
    (ht : req.body.get "title" = .string s) (hs : 200 < (trim s).length)
    (hc : req.body.get "completed" = .undefined) :
    (putTask svc req st).calls = [.updateTask n [("title", .string (trim s))]] ∧
      (putTask svc req st).response.status ≠ 400 := by
  have hne : trim s ≠ [] := by
    intro h
    rw [h] at hs
    simp at hs
  have hu := putUpdates_valid req.body (Or.inr ⟨s, ht, hne⟩) (Or.inl hc)
  rw [ht, hc] at hu
  exact putTask_accepted_calls svc req st n _ hid hu

/-- C2: an update of task 1 whose title has 201 characters is not answered 400. The
handler hands the 201-character title to `updateTask`; the store of the specification
refuses it there, so the request ends as a 500 and not as a validation error. -/
theorem putTask_long_title_forwarded :
    (putTask specStore ⟨js "1", [("title", .string (List.replicate 201 97))]⟩
        oneTaskStore).calls
      = [.updateTask (.finite false 1) [("title", .string (List.replicate 201 97))]] ∧
    (putTask specStore ⟨js "1", [("title", .string (List.replicate 201 97))]⟩
        oneTaskStore).response
      = failure 500 "Internal server error" ∧
    (postTask specStore ⟨[], [("title", .string (List.replicate 201 97))]⟩
        oneTaskStore).response
      = failure 400 "Task title must be less than 200 characters" := by
  set_option maxRecDepth 100000 in decide

/-- C4: an update in which a supplied field is invalid (a title that is not a string or
is empty after trimming, or a completed flag that is not a boolean) is answered 400 with
`success: false`; `updateTask` is not called and the store is left as it was, whatever the
other field and the identifier are. -/
theorem putTask_all_or_nothing {σ τ : Type} (svc : TaskService σ τ) (req : Request) (st : σ)
    (h : (req.body.get "title" ≠ .undefined ∧
            ((req.body.get "title").typeof ≠ "string" ∨
              ∃ s, req.body.get "title" = .string s ∧ trim s = [])) ∨
         (req.body.get "completed" ≠ .undefined ∧
            (req.body.get "completed").typeof ≠ "boolean")) :
    (putTask svc req st).response.status = 400 ∧
    (putTask svc req st).response.success = some (.bool false) ∧
    (putTask svc req st).calls = [] ∧
    (putTask svc req st).state = st := by
  have hbad : ∃ msg, putUpdates req.body = .error msg := by
    rcases h with ⟨h0, h1⟩ | ⟨h0, h1⟩
    · refine ⟨_, putUpdates_bad_title req.body h0 ?_⟩
      intro s hs
      rcases h1 with h1 | ⟨s2, hs2, h2⟩
      · rw [hs] at h1
        exact absurd rfl h1
      · rw [hs] at hs2
        cases hs2
        exact h2
    · refine putUpdates_bad_completed req.body h0 ?_
      intro b hb
      rw [hb] at h1
      exact h1 rfl
  obtain ⟨msg, hmsg⟩ := hbad
  obtain ⟨text, htext⟩ := putTask_refused svc req st msg hmsg
  simp [htext, reject, failure, Response.success]

/-- C4 at a request with a valid title and a completed flag that is a string. -/
theorem putTask_all_or_nothing_witness :
    (putTask specStore
        ⟨js "1", [("title", .string (js "New")), ("completed", .string (js "yes"))]⟩
        oneTaskStore).response.status = 400 ∧
    (putTask specStore
        ⟨js "1", [("title", .string (js "New")), ("completed", .string (js "yes"))]⟩
        oneTaskStore).response.success = some (.bool false) ∧
    (putTask specStore
        ⟨js "1", [("title", .string (js "New")), ("completed", .string (js "yes"))]⟩
        oneTaskStore).calls = [] ∧
    (putTask specStore
        ⟨js "1", [("title", .string (js "New")), ("completed", .string (js "yes"))]⟩
        oneTaskStore).state = oneTaskStore :=
  putTask_all_or_nothing specStore
    ⟨js "1", [("title", .string (js "New")), ("completed", .string (js "yes"))]⟩
    oneTaskStore (Or.inr (by decide))

/-! ## The path identifier -/

/-- A code unit that is not a decimal digit is not a digit of radix 10. -/
theorem isRadixDigit_ten (c : Nat) (h : ¬ (48 ≤ c ∧ c ≤ 57)) : isRadixDigit 10 c = false := by
  unfold isRadixDigit digitValue
  split_ifs <;> simp

/-- A string that does not start with a decimal digit has no magnitude. -/
theorem parseMagnitude_no_digit (s : JsString)
    (h : ∀ c rest, s = c :: rest → ¬ (48 ≤ c ∧ c ≤ 57)) : parseMagnitude s = none := by
  rcases s with _ | ⟨c, rest⟩
  · rfl
  · have hc := h c rest rfl
    have h48 : c ≠ 48 := by omega
    unfold parseMagnitude
    split <;> simp_all [isRadixDigit_ten]

/-- An identifier with no digit after white space and sign parses to `NaN`. -/
theorem parseInt_noLeadingDigit (input : JsString) (h : noLeadingDigit input = true) :
    parseInt input = none := by
  have key : parseMagnitude (stripSign (input.dropWhile isWhiteSpace)) = none := by
    apply parseMagnitude_no_digit
    intro c rest hcr
    simp only [noLeadingDigit, hcr] at h
    simp at h
    omega
  simp only [parseInt, key]

/-- The three handlers with a path identifier refuse one that parses to `NaN`. -/
theorem nan_id_rejected {σ τ : Type} (svc : TaskService σ τ) (req : Request) (st : σ)
    (h : parseInt req.id = none) :
    getTask svc req st = reject st 400 "Invalid task ID" ∧
    putTask svc req st = reject st 400 "Invalid task ID" ∧
    deleteTask svc req st = reject st 400 "Invalid task ID" := by
  refine ⟨?_, ?_, ?_⟩
  · simp only [getTask, h]
  · simp only [putTask, h]
  · simp only [deleteTask, h]

/-- With a parsed identifier, the get handler answers from the outcome of `getTaskById`. -/
theorem getTask_parsed {σ τ : Type} (svc : TaskService σ τ) (req : Request) (st : σ)
    (n : IntegralNumber) (hid : parseInt req.id = some n) :
    getTask svc req st =
      match svc.getTaskById n st with
      | (.ok none, st1) =>
        { response := failure 404 "Task not found",
          calls := [.getTaskById n], logged := none, state := st1 }
      | (.ok (some task), st1) =>
        { response := { status := 200,
                        body := [("success", .bool true), ("data", .task task)] },
          calls := [.getTaskById n], logged := none, state := st1 }
      | (.error error, st1) => caught st1 [.getTaskById n] "Error fetching task:" error := by
  simp only [getTask, hid]

/-- With a parsed identifier, the delete handler answers from the outcome of
`deleteTask`. -/
theorem deleteTask_parsed {σ τ : Type} (svc : TaskService σ τ) (req : Request) (st : σ)
    (n : IntegralNumber) (hid : parseInt req.id = some n) :
    deleteTask svc req st =
      match svc.deleteTask n st with
      | (.ok false, st1) =>
        { response := failure 404 "Task not found",
          calls := [.deleteTask n], logged := none, state := st1 }
      | (.ok true, st1) =>
        { response := { status := 200, body := [("success", .bool true),
                                                ("message", .str "Task deleted successfully")] },
          calls := [.deleteTask n], logged := none, state := st1 }
      | (.error error, st1) => caught st1 [.deleteTask n] "Error deleting task:" error := by
  simp only [deleteTask, hid]

/-- The text of a refusal of the update body is one of the two validation messages. -/
theorem putUpdates_error_text (body : JsObject) (msg : String)
    (h : putUpdates body = .error msg) :
    msg = "Title must be a non-empty string" ∨ msg = "Completed must be a boolean value" := by
  simp only [putUpdates] at h
  cases ht : putTitle (body.get "title") [] with
  | error m =>
    rw [ht] at h
    left
    have hm : m = msg := by simpa using h
    subst hm
    unfold putTitle at ht
    split_ifs at ht
    · split at ht
      · split_ifs at ht
        simpa using ht.symm
      · simpa using ht.symm
  | ok u =>
    rw [ht] at h
    right
    simp only at h
    unfold putCompleted at h
    split_ifs at h
    · split at h
      · cases h
      · simpa using h.symm

/-- The digits of radix 10 are the decimal digits. -/
theorem isRadixDigit_ten_eq : isRadixDigit 10 = isDecimalDigit := by
  funext c
  rw [Bool.eq_iff_iff]
  unfold isRadixDigit digitValue isDecimalDigit
  split_ifs with h1 h2 h3
  · simp only [decide_eq_true_eq]; omega
  · simp only [decide_eq_true_eq]; omega
  · simp only [decide_eq_true_eq]; omega
  · simp only [decide_eq_true_eq]; simp [h1]

/-- The digits of radix 16 are the hexadecimal digits. -/
theorem isRadixDigit_sixteen_eq : isRadixDigit 16 = isHexDigit := by
  funext c
  rw [Bool.eq_iff_iff]
  unfold isRadixDigit digitValue isHexDigit
  split_ifs with h1 h2 h3
  · simp only [decide_eq_true_eq, Bool.or_eq_true]; omega
  · simp only [decide_eq_true_eq, Bool.or_eq_true]; omega
  · simp only [decide_eq_true_eq, Bool.or_eq_true]; omega
  · simp only [decide_eq_true_eq, Bool.or_eq_true]
    constructor
    · intro h; cases h
    · omega

/-- The longest run of `p` at the start of a string is empty exactly when the string
does not begin with a `p`. -/
theorem takeWhile_isEmpty (p : Nat → Bool) (s : JsString) :
    (s.takeWhile p).isEmpty = !(startsWith p s) := by
  cases s with
  | nil => rfl
  | cons c rest =>
    cases h : p c <;> simp [List.takeWhile, startsWith, h]

/-- An unsigned string has no magnitude exactly when no digit can be read from it. -/
theorem parseMagnitude_isNone (s : JsString) :
    (parseMagnitude s).isNone = noDigitUnsigned s := by
  unfold parseMagnitude noDigitUnsigned
  split
  · simp only [takeWhile_isEmpty, isRadixDigit_sixteen_eq]
    cases h : startsWith isHexDigit _ <;> simp [h]
  · simp only [takeWhile_isEmpty, isRadixDigit_sixteen_eq]
    cases h : startsWith isHexDigit _ <;> simp [h]
  · simp only [takeWhile_isEmpty, isRadixDigit_ten_eq]
    cases h : startsWith isDecimalDigit _ <;> simp [h]

/-- `parseInt` yields `NaN` exactly on the identifiers from which no integer can be
read. -/
theorem parseInt_isNaN (input : JsString) : isNaN (parseInt input) = noDigit input := by
  unfold noDigit
  rw [← parseMagnitude_isNone]
  simp only [parseInt, isNaN]
  cases parseMagnitude (stripSign (input.dropWhile isWhiteSpace)) <;> rfl

/-- With a parsed identifier the get handler makes exactly the one call and does not
answer 400. -/
theorem getTask_parsed_calls {σ τ : Type} (svc : TaskService σ τ) (req : Request) (st : σ)
    (n : IntegralNumber) (hid : parseInt req.id = some n) :
    (getTask svc req st).calls = [.getTaskById n] ∧
      (getTask svc req st).response.status ≠ 400 := by
  rw [getTask_parsed svc req st n hid]
  rcases hr : svc.getTaskById n st with ⟨r, st1⟩
  rcases r with e | (_ | t) <;> simp [caught, failure]

/-- With a parsed identifier the delete handler makes exactly the one call and does not
answer 400. -/
theorem deleteTask_parsed_calls {σ τ : Type} (svc : TaskService σ τ) (req : Request)
    (st : σ) (n : IntegralNumber) (hid : parseInt req.id = some n) :
    (deleteTask svc req st).calls = [.deleteTask n] ∧
      (deleteTask svc req st).response.status ≠ 400 := by
  rw [deleteTask_parsed svc req st n hid]
  rcases hr : svc.deleteTask n st with ⟨r, st1⟩
  rcases r with e | (_ | _) <;> simp [caught, failure]

/-- With a parsed identifier the update handler never answers `Invalid task ID`. -/
theorem putTask_parsed_error {σ τ : Type} (svc : TaskService σ τ) (req : Request) (st : σ)
    (n : IntegralNumber) (hid : parseInt req.id = some n) :
    (putTask svc req st).response.error ≠ some (.str "Invalid task ID") := by
  cases hu : putUpdates req.body with
  | error msg =>
    have hput : putTask svc req st = reject st 400 msg := by
      simp only [putTask, hid, hu]
    rcases putUpdates_error_text req.body msg hu with h | h <;>
      simp [hput, h, reject, failure_error]
  | ok u =>
    rw [putTask_accepted svc req st n u hid hu]
    rcases hr : svc.updateTask n u st with ⟨r, st1⟩
    rcases r with e | (_ | t)
    · simp [caught, failure_error]
    · simp [failure_error]
    · simp [Response.error, List.lookup]

/-- Below `2^53` the integer read is the Number returned, with its sign. -/
theorem parseInt_exact (input : JsString) (m : Nat)
    (hm : parseMagnitude (stripSign (input.dropWhile isWhiteSpace)) = some m)
    (hlt : m < 2 ^ 53) :
    parseInt input = some (.finite (hasMinusSign input) m) := by
  simp only [parseInt, hm, toNumber, roundToDouble, if_pos hlt, hasMinusSign]

set_option exponentiation.threshold 2000 in
/-- Integers that need more than 53 binary digits are rounded to the nearest double, and
to an infinity from `2^1024` on: `9007199254740993` is read as `9007199254740992`, and a
run of 400 nines as `Infinity`. -/
theorem parseInt_rounds :
    parseInt (js "9007199254740993") = some (.finite false 9007199254740992) ∧
    parseInt (js "9007199254740995") = some (.finite false 9007199254740996) ∧
    parseInt (List.replicate 400 57) = some (.infinity false) ∧
    parseInt (45 :: List.replicate 400 57) = some (.infinity true) := by
  set_option maxRecDepth 100000 in decide

set_option exponentiation.threshold 2000 in
/-- C3 fails as worded at the identifier `0x`: a digit follows the (absent) white space
and sign, yet `parseInt` yields `NaN` and the get handler answers 400 `Invalid task ID`
without a call. And what reaches the store need not be an integer: for an identifier of
400 nines the store is called with `Infinity`. -/
theorem hex_mark_id_rejected :
    noLeadingDigit (js "0x") = false ∧
    isNaN (parseInt (js "0x")) = true ∧
    (getTask specStore ⟨js "0x", []⟩ oneTaskStore).response
      = failure 400 "Invalid task ID" ∧
    (getTask specStore ⟨js "0x", []⟩ oneTaskStore).calls = [] ∧
    (getTask specStore ⟨List.replicate 400 57, []⟩ oneTaskStore).calls
      = [.getTaskById (.infinity false)] := by
  set_option maxRecDepth 100000 in decide

/-- C3, amended: `parseInt` of the path identifier is `NaN` exactly when no digit follows
the leading white space, the optional sign and the optional `0x` / `0X` mark; then the
get, update and delete handlers answer 400 with `success: false` and error
`Invalid task ID`, call nothing and leave the store alone. When it parses, get and delete
call the store with the Number `parseInt` returned and do not answer 400; update is not
answered `Invalid task ID`, and calls the store with that Number once its body is
accepted. That Number is the integer read, with its sign, when its magnitude is below
`2^53`. -/
theorem invalid_id_rejected {σ τ : Type} (svc : TaskService σ τ) (req : Request) (st : σ) :
    isNaN (parseInt req.id) = noDigit req.id ∧
    (isNaN (parseInt req.id) = true →
      getTask svc req st = reject st 400 "Invalid task ID" ∧
      putTask svc req st = reject st 400 "Invalid task ID" ∧
      deleteTask svc req st = reject st 400 "Invalid task ID") ∧
    (∀ n : IntegralNumber, parseInt req.id = some n →
      (getTask svc req st).calls = [.getTaskById n] ∧
      (getTask svc req st).response.status ≠ 400 ∧
      (deleteTask svc req st).calls = [.deleteTask n] ∧
      (deleteTask svc req st).response.status ≠ 400 ∧
      (putTask svc req st).response.error ≠ some (.str "Invalid task ID") ∧
      (∀ u, putUpdates req.body = .ok u →
        (putTask svc req st).calls = [.updateTask n u] ∧
        (putTask svc req st).response.status ≠ 400)) ∧
    (∀ m : Nat, parseMagnitude (stripSign (req.id.dropWhile isWhiteSpace)) = some m →
      m < 2 ^ 53 → parseInt req.id = some (.finite (hasMinusSign req.id) m)) := by
  refine ⟨parseInt_isNaN req.id, ?_, ?_, parseInt_exact req.id⟩
  · intro h
    apply nan_id_rejected
    cases hp : parseInt req.id with
    | none => rfl
    | some n => simp [hp, isNaN] at h
  · intro n hid
    refine ⟨?_, ?_, ?_, ?_, ?_, ?_⟩
    · rw [getTask_parsed svc req st n hid]
      rcases hr : svc.getTaskById n st with ⟨r, st1⟩
      rcases r with e | (_ | t) <;> simp [caught]
    · rw [getTask_parsed svc req st n hid]
      rcases hr : svc.getTaskById n st with ⟨r, st1⟩
      rcases r with e | (_ | t) <;> simp [caught, failure]
    · rw [deleteTask_parsed svc req st n hid]
      rcases hr : svc.deleteTask n st with ⟨r, st1⟩
      rcases r with e | (_ | _) <;> simp [caught]
    · rw [deleteTask_parsed svc req st n hid]
      rcases hr : svc.deleteTask n st with ⟨r, st1⟩
      rcases r with e | (_ | _) <;> simp [caught, failure]
    · cases hu : putUpdates req.body with
      | error msg =>
        have hput : putTask svc req st = reject st 400 msg := by
          simp only [putTask, hid, hu]
        rcases putUpdates_error_text req.body msg hu with h | h <;>
          simp [hput, h, reject, failure_error]
      | ok u =>
        rw [putTask_accepted svc req st n u hid hu]
        rcases hr : svc.updateTask n u st with ⟨r, st1⟩
        rcases r with e | (_ | t)
        · simp [caught, failure_error]
        · simp [failure_error]
        · simp [Response.error, List.lookup]
    · intro u hu
      exact putTask_accepted_calls svc req st n u hid hu

/-- C3, amended, at the identifier `-5`: the get handler asks the store for task -5. -/
theorem invalid_id_rejected_witness :
    parseInt (js "-5") = some (.finite true 5) ∧
    (getTask specStore ⟨js "-5", []⟩ oneTaskStore).calls = [.getTaskById (.finite true 5)] ∧
    (getTask specStore ⟨js "-5", []⟩ oneTaskStore).response.status ≠ 400 :=
  ⟨by decide,
   ((invalid_id_rejected specStore ⟨js "-5", []⟩ oneTaskStore).2.2.1
      (.finite true 5) (by decide)).1,
   ((invalid_id_rejected specStore ⟨js "-5", []⟩ oneTaskStore).2.2.1
      (.finite true 5) (by decide)).2.1⟩

/-- C9 fails on identifiers that only begin with an integer: `1.5`, `12abc` and `7 ` are
read as 1, 12 and 7 and the store is called. -/
theorem non_integer_id_accepted :
    (getTask specStore ⟨js "1.5", []⟩ oneTaskStore).calls = [.getTaskById (.finite false 1)] ∧
    (getTask specStore ⟨js "1.5", []⟩ oneTaskStore).response.status = 200 ∧
    (putTask specStore ⟨js "12abc", []⟩ oneTaskStore).calls = [.updateTask (.finite false 12) []] ∧
    (putTask specStore ⟨js "12abc", []⟩ oneTaskStore).response.status = 404 ∧
    (deleteTask specStore ⟨js "7 ", []⟩ oneTaskStore).calls = [.deleteTask (.finite false 7)] ∧
    (deleteTask specStore ⟨js "7 ", []⟩ oneTaskStore).response.status = 404 := by
  decide

/-- C9, amended: the get, update and delete handlers answer 400 with error
`Invalid task ID`, without a call to the store, exactly when no integer can be read from
the path identifier: after leading white space, an optional sign and an optional
`0x` / `0X` mark there is no digit, as in `abc`, the empty string, `.5` or `0x`. The
identifiers `1.5`, `12abc` and `7 ` are accepted, and the store is called with 1, 12
and 7. -/
theorem unreadable_id_rejected {σ τ : Type} (svc : TaskService σ τ) (req : Request)
    (st : σ) :
    (((getTask svc req st).response = failure 400 "Invalid task ID" ∧
        (getTask svc req st).calls = []) ↔ noDigit req.id = true) ∧
    (((putTask svc req st).response = failure 400 "Invalid task ID" ∧
        (putTask svc req st).calls = []) ↔ noDigit req.id = true) ∧
    (((deleteTask svc req st).response = failure 400 "Invalid task ID" ∧
        (deleteTask svc req st).calls = []) ↔ noDigit req.id = true) ∧
    (noDigit (js "abc") = true ∧ noDigit (js "") = true ∧ noDigit (js ".5") = true ∧
      noDigit (js "0x") = true) ∧
    (getTask svc ⟨js "1.5", req.body⟩ st).calls = [.getTaskById (.finite false 1)] ∧
    (putTask svc ⟨js "12abc", []⟩ st).calls = [.updateTask (.finite false 12) []] ∧
    (deleteTask svc ⟨js "7 ", req.body⟩ st).calls = [.deleteTask (.finite false 7)] := by
  refine ⟨?_, ?_, ?_, by decide, ?_, ?_, ?_⟩
  · rw [← parseInt_isNaN]
    cases hp : parseInt req.id with
    | none => simp [(nan_id_rejected svc req st hp).1, reject, isNaN]
    | some n => simp [(getTask_parsed_calls svc req st n hp).1, isNaN]
  · rw [← parseInt_isNaN]
    cases hp : parseInt req.id with
    | none => simp [(nan_id_rejected svc req st hp).2.1, reject, isNaN]
    | some n =>
      have herr := putTask_parsed_error svc req st n hp
      simp only [isNaN, Option.isNone_some, Bool.false_eq_true, iff_false, not_and]
      intro hresp
      rw [hresp, failure_error] at herr
      exact absurd rfl herr
  · rw [← parseInt_isNaN]
    cases hp : parseInt req.id with
    | none => simp [(nan_id_rejected svc req st hp).2.2, reject, isNaN]
    | some n => simp [(deleteTask_parsed_calls svc req st n hp).1, isNaN]
  · have hid : parseInt (js "1.5") = some (.finite false 1) := by decide
    exact (getTask_parsed_calls svc ⟨js "1.5", req.body⟩ st (.finite false 1) hid).1
  · exact (putTask_accepted_calls svc ⟨js "12abc", []⟩ st (.finite false 12) []
      (by decide) rfl).1
  · have hid : parseInt (js "7 ") = some (.finite false 7) := by decide
    exact (deleteTask_parsed_calls svc ⟨js "7 ", req.body⟩ st (.finite false 7) hid).1

/-- C9, amended, at the identifier `0x`: no integer can be read, and the delete handler
answers 400 `Invalid task ID` without a call. -/
theorem unreadable_id_rejected_witness :
    (deleteTask specStore ⟨js "0x", []⟩ oneTaskStore).response
      = failure 400 "Invalid task ID" ∧
    (deleteTask specStore ⟨js "0x", []⟩ oneTaskStore).calls = [] :=
  (unreadable_id_rejected specStore ⟨js "0x", []⟩ oneTaskStore).2.2.1.mpr (by decide)

/-- C1 at a title of 200 characters: it is accepted and handed to `createTask`. -/
theorem postTask_rejects_iff_witness :
    (postTask specStore ⟨[], [("title", .string (List.replicate 200 97))]⟩
        emptyStore).response.status ≠ 400 ∧
    (postTask specStore ⟨[], [("title", .string (List.replicate 200 97))]⟩
        emptyStore).calls = [.createTask (List.replicate 200 97)] :=
  (postTask_rejects_iff specStore ⟨[], [("title", .string (List.replicate 200 97))]⟩
    emptyStore).2.2.1 (List.replicate 200 97) rfl
    (by set_option maxRecDepth 100000 in decide)

/-- C10: an update passes validation exactly when its title is absent or a string that
is non-empty after trimming and its completed flag is absent or a boolean. Such an update
is not rejected: `updateTask` is called once, with a change set made of the supplied
fields only: the trimmed, non-empty title exactly when the body has a title, the boolean
exactly when the body has a completed flag, and no other key. A body with neither field
leads to a call with the empty change set. -/
theorem putTask_change_set {σ τ : Type} (svc : TaskService σ τ) (req : Request) (st : σ)
    (n : IntegralNumber) (hid : parseInt req.id = some n) :
    ((req.body.get "title" = .undefined ∨
        ∃ s, req.body.get "title" = .string s ∧ trim s ≠ []) →
      (req.body.get "completed" = .undefined ∨
        ∃ b, req.body.get "completed" = .boolean b) →
      (putTask svc req st).calls =
        [.updateTask n (titleChange (req.body.get "title") ++
                        completedChange (req.body.get "completed"))] ∧
      (putTask svc req st).response.status ≠ 400 ∧
      (∀ u, u = titleChange (req.body.get "title") ++
                completedChange (req.body.get "completed") →
        ((u.lookup "title").isSome ↔ req.body.get "title" ≠ .undefined) ∧
        (req.body.get "title" ≠ .undefined →
          ∃ s, req.body.get "title" = .string s ∧ trim s ≠ [] ∧
            u.lookup "title" = some (.string (trim s))) ∧
        ((u.lookup "completed").isSome ↔ req.body.get "completed" ≠ .undefined) ∧
        (req.body.get "completed" ≠ .undefined →
          ∃ b, req.body.get "completed" = .boolean b ∧
            u.lookup "completed" = some (.boolean b)) ∧
        (∀ p ∈ u, p.1 = "title" ∨ p.1 = "completed"))) ∧
    ((putTask svc req st).response.status ≠ 400 →
      (req.body.get "title" = .undefined ∨
        ∃ s, req.body.get "title" = .string s ∧ trim s ≠ []) ∧
      (req.body.get "completed" = .undefined ∨
        ∃ b, req.body.get "completed" = .boolean b)) ∧
    (req.body.get "title" = .undefined → req.body.get "completed" = .undefined →
      (putTask svc req st).calls = [.updateTask n []] ∧
      (putTask svc req st).response.status ≠ 400) := by
  refine ⟨?_, ?_, ?_⟩
  · intro ht hc
    have hu := putUpdates_valid req.body ht hc
    have hcalls := putTask_accepted_calls svc req st n _ hid hu
    refine ⟨hcalls.1, hcalls.2, ?_⟩
    rintro u rfl
    rcases ht with ht | ⟨s, ht, hs⟩
    · rcases hc with hc | ⟨b, hc⟩ <;>
        simp [ht, hc, titleChange, completedChange, List.lookup]
    · rcases hc with hc | ⟨b, hc⟩ <;>
        simp [ht, hc, hs, titleChange, completedChange, List.lookup]
  · intro hstatus
    cases hu : putUpdates req.body with
    | error msg =>
      have hput : putTask svc req st = reject st 400 msg := by
        simp only [putTask, hid, hu]
      rw [hput] at hstatus
      exact absurd rfl hstatus
    | ok u =>
      obtain ⟨ht, hc, _⟩ := putUpdates_ok_inv req.body u hu
      exact ⟨ht, hc⟩
  · intro ht hc
    have hu := putUpdates_valid req.body (Or.inl ht) (Or.inl hc)
    rw [ht, hc] at hu
    exact putTask_accepted_calls svc req st n _ hid hu

/-- C10 at an update of task 1 that supplies a title and a completed flag, with stray
fields in the body: the call carries the trimmed title and the boolean, nothing else. -/
theorem putTask_change_set_witness :
    (putTask specStore
        ⟨js "1", [("id", .number .nonzero), ("title", .string (js " New ")),
                  ("completed", .boolean true), ("createdAt", .string (js "2020"))]⟩
        oneTaskStore).calls
      = [.updateTask (.finite false 1)
          [("title", .string (js "New")), ("completed", .boolean true)]] :=
  ((putTask_change_set specStore
      ⟨js "1", [("id", .number .nonzero), ("title", .string (js " New ")),
                ("completed", .boolean true), ("createdAt", .string (js "2020"))]⟩
      oneTaskStore (.finite false 1) (by decide)).1
    (Or.inr ⟨js " New ", rfl, by decide⟩) (Or.inr ⟨true, rfl⟩)).1

/-! ## The shape of responses -/

/-- A failure response fits the envelope. -/
theorem failure_shaped {τ : Type} (status : Nat) (error : String) (okStatus : Nat)
    (payload : Option (Json τ) → Prop) :
    (failure status error : Response τ).Shaped okStatus payload :=
  Or.inr ⟨rfl, ⟨error, rfl⟩, rfl⟩

/-- C5 fails for delete: a successful delete answers `success: true` with status 200 but
without a `data` field, although the store returned `true`. -/
theorem deleteTask_success_no_data :
    (specStore.deleteTask (.finite false 1) oneTaskStore).1 = .ok true ∧
    (deleteTask specStore ⟨js "1", []⟩ oneTaskStore).response.success = some (.bool true) ∧
    (deleteTask specStore ⟨js "1", []⟩ oneTaskStore).response.status = 200 ∧
    (deleteTask specStore ⟨js "1", []⟩ oneTaskStore).response.data = none := by
  refine ⟨rfl, ?_, ?_, ?_⟩ <;> decide

/-- C5, amended: every response of the five handlers has a `success` flag. A successful
response of list, get, create or update has `success: true` and as `data` what the store
returned (the list, or the task), with status 201 for create and 200 otherwise; a
successful delete has `success: true`, status 200 and no `data`. A failed response has
`success: false`, an error text and no `data`. -/
theorem responses_shaped {σ τ : Type} (svc : TaskService σ τ) (req : Request) (st : σ) :
    (getTasks svc req st).response.Shaped 200
      (fun d => ∃ ts, (svc.getAllTasks st).1 = .ok ts ∧ d = some (.tasks ts)) ∧
    (getTask svc req st).response.Shaped 200
      (fun d => ∃ n t, parseInt req.id = some n ∧
        (svc.getTaskById n st).1 = .ok (some t) ∧ d = some (.task t)) ∧
    (postTask svc req st).response.Shaped 201
      (fun d => ∃ s t, req.body.get "title" = .string s ∧
        (svc.createTask s st).1 = .ok t ∧ d = some (.task t)) ∧
    (putTask svc req st).response.Shaped 200
      (fun d => ∃ n u t, parseInt req.id = some n ∧ putUpdates req.body = .ok u ∧
        (svc.updateTask n u st).1 = .ok (some t) ∧ d = some (.task t)) ∧
    (deleteTask svc req st).response.Shaped 200
      (fun d => ∃ n, parseInt req.id = some n ∧
        (svc.deleteTask n st).1 = .ok true ∧ d = none) := by
  refine ⟨?_, ?_, ?_, ?_, ?_⟩
  · unfold getTasks
    rcases hr : svc.getAllTasks st with ⟨r, st1⟩
    rcases r with e | ts
    · exact failure_shaped _ _ _ _
    · exact Or.inl ⟨rfl, rfl, ts, rfl, rfl⟩
  · cases hid : parseInt req.id with
    | none =>
      rw [(nan_id_rejected svc req st hid).1]
      exact failure_shaped _ _ _ _
    | some n =>
      rw [getTask_parsed svc req st n hid]
      rcases hr : svc.getTaskById n st with ⟨r, st1⟩
      rcases r with e | (_ | t)
      · exact failure_shaped _ _ _ _
      · exact failure_shaped _ _ _ _
      · exact Or.inl ⟨rfl, rfl, n, t, rfl, by rw [hr], rfl⟩
  · cases hv : req.body.get "title" with
    | string s =>
      rw [postTask_string svc req st s hv]
      by_cases hbad : trim s = [] ∨ 200 < (trim s).length
      · rw [if_pos hbad]
        exact failure_shaped _ _ _ _
      · rw [if_neg hbad]
        rcases hr : svc.createTask s st with ⟨r, st1⟩
        rcases r with e | t
        · exact failure_shaped _ _ _ _
        · exact Or.inl ⟨rfl, rfl, s, t, rfl, by rw [hr], rfl⟩
    | _ =>
      rw [postTask_not_string svc req st (by simp [hv])]
      exact failure_shaped _ _ _ _
  · cases hid : parseInt req.id with
    | none =>
      rw [(nan_id_rejected svc req st hid).2.1]
      exact failure_shaped _ _ _ _
    | some n =>
      cases hu : putUpdates req.body with
      | error msg =>
        have hput : putTask svc req st = reject st 400 msg := by
          simp only [putTask, hid, hu]
        rw [hput]
        exact failure_shaped _ _ _ _
      | ok u =>
        rw [putTask_accepted svc req st n u hid hu]
        rcases hr : svc.updateTask n u st with ⟨r, st1⟩
        rcases r with e | (_ | t)
        · exact failure_shaped _ _ _ _
        · exact failure_shaped _ _ _ _
        · exact Or.inl ⟨rfl, rfl, n, u, t, rfl, rfl, by rw [hr], rfl⟩
  · cases hid : parseInt req.id with
    | none =>
      rw [(nan_id_rejected svc req st hid).2.2]
      exact failure_shaped _ _ _ _
    | some n =>
      rw [deleteTask_parsed svc req st n hid]
      rcases hr : svc.deleteTask n st with ⟨r, st1⟩
      rcases r with e | (_ | _)
      · exact failure_shaped _ _ _ _
      · exact failure_shaped _ _ _ _
      · exact Or.inl ⟨rfl, rfl, n, rfl, by rw [hr], rfl⟩

/-! ## Not found, internal failure -/

/-- C6: with a parsed identifier (and, for update, an accepted body), the get, update and
delete handlers answer 404 exactly when the store reports the task absent, and then the
response is `success: false` with error `Task not found`; when the store reports the task
present the status is 200. An absent task is thus never answered 400 or 500. -/
theorem not_found_iff {σ τ : Type} (svc : TaskService σ τ) (req : Request) (st : σ)
    (n : IntegralNumber) (hid : parseInt req.id = some n) :
    (((getTask svc req st).response.status = 404 ↔ (svc.getTaskById n st).1 = .ok none) ∧
      ((svc.getTaskById n st).1 = .ok none →
        (getTask svc req st).response = failure 404 "Task not found") ∧
      (∀ t, (svc.getTaskById n st).1 = .ok (some t) →
        (getTask svc req st).response.status = 200)) ∧
    (∀ u, putUpdates req.body = .ok u →
      ((putTask svc req st).response.status = 404 ↔ (svc.updateTask n u st).1 = .ok none) ∧
      ((svc.updateTask n u st).1 = .ok none →
        (putTask svc req st).response = failure 404 "Task not found") ∧
      (∀ t, (svc.updateTask n u st).1 = .ok (some t) →
        (putTask svc req st).response.status = 200)) ∧
    (((deleteTask svc req st).response.status = 404 ↔ (svc.deleteTask n st).1 = .ok false) ∧
      ((svc.deleteTask n st).1 = .ok false →
        (deleteTask svc req st).response = failure 404 "Task not found") ∧
      ((svc.deleteTask n st).1 = .ok true →
        (deleteTask svc req st).response.status = 200)) := by
  refine ⟨?_, ?_, ?_⟩
  · rw [getTask_parsed svc req st n hid]
    rcases hr : svc.getTaskById n st with ⟨r, st1⟩
    rcases r with e | (_ | t) <;> simp [caught, failure]
  · intro u hu
    rw [putTask_accepted svc req st n u hid hu]
    rcases hr : svc.updateTask n u st with ⟨r, st1⟩
    rcases r with e | (_ | t) <;> simp [caught, failure]
  · rw [deleteTask_parsed svc req st n hid]
    rcases hr : svc.deleteTask n st with ⟨r, st1⟩
    rcases r with e | (_ | _) <;> simp [caught, failure]

/-- C6 at a get of task 9999, which the store does not hold. -/
theorem not_found_iff_witness :
    (getTask specStore ⟨js "9999", []⟩ oneTaskStore).response
      = failure 404 "Task not found" :=
  (not_found_iff specStore ⟨js "9999", []⟩ oneTaskStore (.finite false 9999) (by decide)).1.2.1 rfl

/-- C7: in each of the five handlers a fault thrown by the service operation is caught:
the handler answers 500 with `success: false` and error `Internal server error`, and logs
the fault. Conversely a handler answers 500 only when its service operation threw. -/
theorem internal_error_iff {σ τ : Type} (svc : TaskService σ τ) (req : Request) (st : σ) :
    ((∀ e, (svc.getAllTasks st).1 = .error e →
        (getTasks svc req st).response = failure 500 "Internal server error" ∧
        (getTasks svc req st).logged = some ("Error fetching tasks:", e)) ∧
      ((getTasks svc req st).response.status = 500 →
        ∃ e, (svc.getAllTasks st).1 = .error e)) ∧
    ((∀ n e, parseInt req.id = some n → (svc.getTaskById n st).1 = .error e →
        (getTask svc req st).response = failure 500 "Internal server error" ∧
        (getTask svc req st).logged = some ("Error fetching task:", e)) ∧
      ((getTask svc req st).response.status = 500 →
        ∃ n e, parseInt req.id = some n ∧ (svc.getTaskById n st).1 = .error e)) ∧
    ((∀ s e, req.body.get "title" = .string s → trim s ≠ [] → (trim s).length ≤ 200 →
        (svc.createTask s st).1 = .error e →
        (postTask svc req st).response = failure 500 "Internal server error" ∧
        (postTask svc req st).logged = some ("Error creating task:", e)) ∧
      ((postTask svc req st).response.status = 500 →
        ∃ s e, req.body.get "title" = .string s ∧ (svc.createTask s st).1 = .error e)) ∧
    ((∀ n u e, parseInt req.id = some n → putUpdates req.body = .ok u →
        (svc.updateTask n u st).1 = .error e →
        (putTask svc req st).response = failure 500 "Internal server error" ∧
        (putTask svc req st).logged = some ("Error updating task:", e)) ∧
      ((putTask svc req st).response.status = 500 →
        ∃ n u e, parseInt req.id = some n ∧ putUpdates req.body = .ok u ∧
          (svc.updateTask n u st).1 = .error e)) ∧
    ((∀ n e, parseInt req.id = some n → (svc.deleteTask n st).1 = .error e →
        (deleteTask svc req st).response = failure 500 "Internal server error" ∧
        (deleteTask svc req st).logged = some ("Error deleting task:", e)) ∧
      ((deleteTask svc req st).response.status = 500 →
        ∃ n e, parseInt req.id = some n ∧ (svc.deleteTask n st).1 = .error e)) := by
  refine ⟨?_, ?_, ?_, ?_, ?_⟩
  · unfold getTasks
    rcases hr : svc.getAllTasks st with ⟨r, st1⟩
    rcases r with e | ts <;> simp [caught, failure]
  · cases hid : parseInt req.id with
    | none => simp [(nan_id_rejected svc req st hid).1, reject, failure]
    | some n =>
      rw [getTask_parsed svc req st n hid]
      rcases hr : svc.getTaskById n st with ⟨r, st1⟩
      rcases r with e | (_ | t) <;> simp [caught, failure] <;>
        (intros; subst_vars; simp_all; try (intros; subst_vars; simp_all))
  · cases hv : req.body.get "title" with
    | string s =>
      rw [postTask_string svc req st s hv]
      by_cases hbad : trim s = [] ∨ 200 < (trim s).length
      · rw [if_pos hbad]
        constructor
        · intro s2 e hs2 h0 h200
          cases hs2
          rcases hbad with h | h
          · exact absurd h h0
          · omega
        · simp [reject, failure]
      · rw [if_neg hbad]
        rcases hr : svc.createTask s st with ⟨r, st1⟩
        rcases r with e | t
        · constructor
          · intro s2 e2 hs2 _ _ he
            cases hs2
            rw [hr] at he
            cases he
            exact ⟨rfl, rfl⟩
          · intro _
            exact ⟨s, e, rfl, by rw [hr]⟩
        · constructor
          · intro s2 e2 hs2 _ _ he
            cases hs2
            rw [hr] at he
            cases he
          · simp
    | _ =>
      rw [postTask_not_string svc req st (by simp [hv])]
      simp [reject, failure]
  · cases hid : parseInt req.id with
    | none => simp [(nan_id_rejected svc req st hid).2.1, reject, failure]
    | some n =>
      cases hu : putUpdates req.body with
      | error msg =>
        have hput : putTask svc req st = reject st 400 msg := by
          simp only [putTask, hid, hu]
        simp [hput, reject, failure]
      | ok u =>
        rw [putTask_accepted svc req st n u hid hu]
        rcases hr : svc.updateTask n u st with ⟨r, st1⟩
        rcases r with e | (_ | t) <;> simp [caught, failure] <;>
          (intros; subst_vars; simp_all; try (intros; subst_vars; simp_all))
  · cases hid : parseInt req.id with
    | none => simp [(nan_id_rejected svc req st hid).2.2, reject, failure]
    | some n =>
      rw [deleteTask_parsed svc req st n hid]
      rcases hr : svc.deleteTask n st with ⟨r, st1⟩
      rcases r with e | (_ | _) <;> simp [caught, failure] <;>
        (intros; subst_vars; simp_all; try (intros; subst_vars; simp_all))

/-- C7 at a service whose every operation throws: the create handler answers 500. -/
theorem internal_error_iff_witness :
    (postTask (failingService ⟨"Error", "disk full"⟩)
        ⟨[], [("title", .string (js "Buy milk"))]⟩ emptyStore).response
      = failure 500 "Internal server error" :=
  ((internal_error_iff (failingService ⟨"Error", "disk full"⟩)
      ⟨[], [("title", .string (js "Buy milk"))]⟩ emptyStore).2.2.1.1
    (js "Buy milk") ⟨"Error", "disk full"⟩ rfl (by decide) (by decide) rfl).1

/-! ## Fault details in responses -/

/-- C8: the 500 responses of the five handlers do not depend on the fault: replacing every
thrown fault by another leaves each response unchanged. The global error handler sends
`error.message` when `NODE_ENV` is `development` and the fixed text `Something went wrong`
otherwise, so that outside development its response is the same for any two faults. -/
theorem fault_details_suppressed {σ τ : Type} (svc : TaskService σ τ) (req : Request)
    (st : σ) (f : Fault → Fault) (nodeEnv : Option String) (e1 e2 : Fault) :
    ((getTasks (svc.mapFault f) req st).response = (getTasks svc req st).response ∧
      (getTask (svc.mapFault f) req st).response = (getTask svc req st).response ∧
      (postTask (svc.mapFault f) req st).response = (postTask svc req st).response ∧
      (putTask (svc.mapFault f) req st).response = (putTask svc req st).response ∧
      (deleteTask (svc.mapFault f) req st).response = (deleteTask svc req st).response) ∧
    (nodeEnv ≠ some "development" →
      (globalErrorHandler nodeEnv e1 : Response τ) = globalErrorHandler nodeEnv e2) ∧
    (nodeEnv = some "development" →
      (globalErrorHandler nodeEnv e1 : Response τ).message = some (.str e1.message)) ∧
    (nodeEnv ≠ some "development" →
      (globalErrorHandler nodeEnv e1 : Response τ).message
        = some (.str "Something went wrong")) ∧
    (globalErrorHandler nodeEnv e1 : Response τ).status = 500 := by
  refine ⟨⟨?_, ?_, ?_, ?_, ?_⟩, ?_, ?_, ?_, rfl⟩
  · unfold getTasks
    simp only [TaskService.mapFault]
    rcases hr : svc.getAllTasks st with ⟨r, st1⟩
    rcases r with e | ts <;> simp [Except.mapError, caught]
  · unfold getTask
    cases parseInt req.id with
    | none => rfl
    | some n =>
      simp only [TaskService.mapFault]
      rcases hr : svc.getTaskById n st with ⟨r, st1⟩
      rcases r with e | (_ | t) <;> simp [Except.mapError, caught]
  · unfold postTask
    cases req.body.get "title" with
    | string s =>
      simp only [TaskService.mapFault]
      rcases hr : svc.createTask s st with ⟨r, st1⟩
      rcases r with e | t
      · simp only [Except.mapError, caught]
        split_ifs <;> rfl
      · simp [Except.mapError]
    | _ => rfl
  · unfold putTask
    cases parseInt req.id with
    | none => rfl
    | some n =>
      cases putUpdates req.body with
      | error msg => rfl
      | ok u =>
        simp only [TaskService.mapFault]
        rcases hr : svc.updateTask n u st with ⟨r, st1⟩
        rcases r with e | (_ | t) <;> simp [Except.mapError, caught]
  · unfold deleteTask
    cases parseInt req.id with
    | none => rfl
    | some n =>
      simp only [TaskService.mapFault]
      rcases hr : svc.deleteTask n st with ⟨r, st1⟩
      rcases r with e | (_ | _) <;> simp [Except.mapError, caught]
  · intro h
    simp [globalErrorHandler, h]
  · intro h
    simp [globalErrorHandler, h, Response.message, List.lookup]
  · intro h
    simp [globalErrorHandler, h, Response.message, List.lookup]

/-- C8 with `NODE_ENV` unset: two faults with different messages get the same response
from the global error handler. -/
theorem fault_details_suppressed_witness :
    (globalErrorHandler none ⟨"Error", "connection refused at 10.0.0.5"⟩ : Response Task)
      = globalErrorHandler none ⟨"Error", "out of memory"⟩ :=
  (fault_details_suppressed specStore ⟨[], []⟩ emptyStore id none
    ⟨"Error", "connection refused at 10.0.0.5"⟩ ⟨"Error", "out of memory"⟩).2.1 (by decide)

/-- C5, amended, at a get of the stored task 1: a successful response with the task
as `data`. -/
theorem responses_shaped_witness :
    (getTask specStore ⟨js "1", []⟩ oneTaskStore).response.Shaped 200
      (fun d => ∃ n t, parseInt (js "1") = some n ∧
        (specStore.getTaskById n oneTaskStore).1 = .ok (some t) ∧ d = some (.task t)) :=
  (responses_shaped specStore ⟨js "1", []⟩ oneTaskStore).2.1

end TaskManager
